import Mathlib

/-!
Shallow embedding of the authentication, verification and
ownership-authorization core of the SimpliCloud web application
(Express/Sequelize, JavaScript).  Each definition is translated from a
concrete source location, named in its doc comment.  HTTP handlers become
pure functions from the request data and the relevant database rows to a
response value; database lookups become lookups in an explicit list of
rows; `bcrypt.compare` is abstracted as a comparison-function parameter.
Timestamps are natural numbers in milliseconds, matching the route code
that works with `Date.now()` differences.
-/

/-- An HTTP response as produced by the handlers: a status code, the
`error`/`message` string of the JSON body (`none` for an empty body or a
204/201 body that carries no message), and whether the `WWW-Authenticate`
header was set. -/
structure Resp where
  status : Nat
  body : Option String
  wwwAuth : Bool := false
deriving DecidableEq, Repr

/-! ## Request-shape string validators

The routes validate path/query parameters with two regular expressions.
They are embedded here as character-level checkers over `String.data`. -/

/-- Character class of the regex `[0-9a-f]` under the `/i` flag. -/
def isHexChar (c : Char) : Bool :=
  (('0' ≤ c) && (c ≤ '9')) || (('a' ≤ c) && (c ≤ 'f')) || (('A' ≤ c) && (c ≤ 'F'))

/-- The version-4 UUID test used throughout the routes
(src/routes/verification.js line 48, src/unnamed/part_005 lines 378, 438,
526, 683, 908, 939, 1010, 1080):
regex `[0-9a-f]{8}-[0-9a-f]{4}-4[0-9a-f]{3}-[89ab][0-9a-f]{3}-[0-9a-f]{12}`
anchored on both sides, case-insensitive. -/
def uuidV4Check (s : String) : Bool :=
  let l := s.data
  (l.length == 36) &&
  (List.range 36).all (fun i =>
    let c := l.getD i ' '
    if (i == 8) || (i == 13) || (i == 18) || (i == 23) then c == '-'
    else if i == 14 then c == '4'
    else if i == 19 then
      (c == '8') || (c == '9') || (c == 'a') || (c == 'b') || (c == 'A') || (c == 'B')
    else isHexChar c)

/-- Character class of the regex `[^\s@]`: neither whitespace nor `@`. -/
def isEmailChar (c : Char) : Bool :=
  !c.isWhitespace && !(c == '@')

/-- Helper for `emailCheck`: the tail of the domain part matches
`[0-9...]*\.[^\s@]+`, i.e. it contains a dot that is not its last
character.  Character-class membership is checked separately. -/
def hasDotNotLast : List Char → Bool
  | [] => false
  | [_] => false
  | c :: rest => (c == '.') || hasDotNotLast rest

/-- The email-format test of the verification route
(src/routes/verification.js line 36): regex `^[^\s@]+@[^\s@]+\.[^\s@]+$`.
A string matches exactly when it decomposes as `local@domain` with a
nonempty `local` free of whitespace and `@`, and a `domain` free of
whitespace and `@` that contains a dot in an interior position. -/
def emailCheck (s : String) : Bool :=
  go s.data [] where
  go : List Char → List Char → Bool
  | [], _ => false
  | c :: rest, acc =>
    if c == '@' then
      !(acc == []) && (acc.all isEmailChar) && (rest.all isEmailChar)
        && (match rest with
            | [] => false
            | _ :: t => hasDotNotLast t)
    else go rest (c :: acc)

/-! ## Identity records of the verification era

The verification route (src/routes/verification.js), the registration
route (src/unnamed/part_005 lines 176 to 362) and the authentication
middleware (src/models/HealthCheck.js lines 106 to 217) read and write
the fields below on the `User` model: `id`, `email`, `password` (the
bcrypt hash, stored in the column named `password`), `first_name`,
`last_name`, `email_verified`, `verification_token` (nullable) and
`token_created_at` (nullable timestamp). -/

/-- A `User` row as consumed by the verification-era routes and
middleware.  `verification_token` and `token_created_at` are nullable;
`token_created_at` is a timestamp in milliseconds. -/
structure VUser where
  id : String
  email : String
  password : String
  first_name : String
  last_name : String
  email_verified : Bool
  verification_token : Option String
  token_created_at : Option Nat
deriving DecidableEq, Repr

/-- Token expiry window in milliseconds. Modelled from the spec:
EXPIRY_SECONDS has observed default 60 (spec section 4.2). -/
def EXPIRY_MS : Nat := 60000

/-- Modelled from the spec: `User.prototype.isTokenExpired`, called by the
verification route (src/routes/verification.js line 101, src/unnamed/part_005
line 324), is defined in a `User` model file that is not among the sources.
Per spec section 4.2 step 3 the token is expired when
`now() - token_created_at > EXPIRY_SECONDS` with the 60-second default;
the route computes ages in milliseconds via `Date.now()`.  A row without a
stored `token_created_at` counts as expired. -/
def VUser.isTokenExpired (u : VUser) (now : Nat) : Bool :=
  match u.token_created_at with
  | some c => decide (now - c > EXPIRY_MS)
  | none => true

/-- The four outcomes of the verification check on a resolved user row. -/
inductive VerifyOutcome where
  | alreadyVerified
  | invalidToken
  | expiredToken
  | ok
deriving DecidableEq, Repr

/-- The HTTP response each `VerifyOutcome` is rendered as
(src/routes/verification.js lines 80 to 82, 95 to 97, 113 to 115,
136 to 139). -/
def verifyResp : VerifyOutcome → Resp
  | .alreadyVerified => ⟨200, some "Email already verified", false⟩
  | .invalidToken => ⟨400, some "Invalid verification token", false⟩
  | .expiredToken =>
      ⟨400, some "Verification link has expired. Please request a new verification email.", false⟩
  | .ok => ⟨200, some "Email verified successfully", false⟩

/-- The core verification check on a resolved user row, translated from
src/routes/verification.js lines 74 to 122: first the
`user.email_verified` short circuit, then the strict token comparison
(`user.verification_token !== token`; a cleared `null` token never equals
a submitted string), then the expiry check, and finally the success
mutation that sets `email_verified`, clears both token fields and saves.
Returns the outcome together with the row as it is persisted. -/
def verifyCheck (u : VUser) (token : String) (now : Nat) : VerifyOutcome × VUser :=
  if u.email_verified then
    (.alreadyVerified, u)
  else if !(u.verification_token == some token) then
    (.invalidToken, u)
  else if u.isTokenExpired now then
    (.expiredToken, u)
  else
    (.ok, { u with email_verified := true, verification_token := none,
                   token_created_at := none })

/-- `User.findOne({ where: { email } })`
(src/routes/verification.js line 61) over an explicit list of rows. -/
def findUserByEmail (us : List VUser) (email : String) : Option VUser :=
  us.find? (fun u => u.email == email)

/-- `user.save()` on the row list: replaces the row with the same `id`. -/
def saveUser (us : List VUser) (u : VUser) : List VUser :=
  us.map (fun v => if v.id == u.id then u else v)

/-- The full `GET /v1/user/verify` handler from src/routes/verification.js
lines 12 to 157: missing-parameter check (JS truthiness, so an absent or
empty string parameter is missing), email-format check, token-shape
check, user lookup, then `verifyCheck`; the updated row list is returned
alongside the response. -/
def verifyRoute (us : List VUser) (email token : Option String) (now : Nat) :
    Resp × List VUser :=
  let emailS := email.getD ""
  let tokenS := token.getD ""
  if emailS == "" || tokenS == "" then
    (⟨400, some "Missing required parameters: email and token are required", false⟩, us)
  else if !(emailCheck emailS) then
    (⟨400, some "Invalid email format", false⟩, us)
  else if !(uuidV4Check tokenS) then
    (⟨400, some "Invalid verification token format", false⟩, us)
  else
    match findUserByEmail us emailS with
    | none => (⟨404, some "User not found", false⟩, us)
    | some u =>
      let r := verifyCheck u tokenS now
      (verifyResp r.1, saveUser us r.2)

/-- Sequential iteration of `verifyCheck`: each call submits a token at a
time, and the persisted row feeds the next call. -/
def runChecks : VUser → List (String × Nat) → List VerifyOutcome × VUser
  | u, [] => ([], u)
  | u, (t, n) :: rest =>
    let r := verifyCheck u t n
    let rs := runChecks r.2 rest
    (r.1 :: rs.1, rs.2)

/-- Number of `ok` outcomes in a list of verification outcomes. -/
def okCount (l : List VerifyOutcome) : Nat :=
  l.countP (fun o => o == .ok)

/-! ## Credential decoding and the Basic-auth middleware

From the authentication middleware variant with the email-verification
gate, src/models/HealthCheck.js lines 106 to 217.  Base64 transport
decoding is outside the model: the functions below start from the decoded
`principal:secret` payload string.  `bcrypt.compare` is passed in as a
comparison function. -/

/-- Splits a character list at every occurrence of `sep`, like the
JavaScript `String.prototype.split` with a one-character separator. -/
def splitOnCharAux (sep : Char) : List Char → List Char → List (List Char)
  | [], acc => [acc.reverse]
  | c :: rest, acc =>
    if c == sep then acc.reverse :: splitOnCharAux sep rest []
    else splitOnCharAux sep rest (c :: acc)

/-- JavaScript `s.split(sep)` for a one-character separator. -/
def jsSplit (sep : Char) (s : String) : List String :=
  (splitOnCharAux sep s.data []).map List.asString

/-- The credential decode of the middleware, src/models/HealthCheck.js
lines 131 to 139: `const [email, password] = credentials.split(':')`
takes the first two segments of the split at every colon, and the JS
truthiness test `!email || !password` rejects a missing or empty segment
with the malformed-credentials response. -/
def parseCredentials (credentials : String) : Option (String × String) :=
  let parts := jsSplit ':' credentials
  let email := (parts.get? 0).getD ""
  let password := (parts.get? 1).getD ""
  if (email == "") || (password == "") then none
  else some (email, password)

/-- The split the specification describes (spec sections 4.3 and 6): cut
at the first separator occurrence only, the secret being the entire
remainder, further separators included.  Stated for comparison with
`parseCredentials`; it is not what the middleware computes. -/
def splitAtFirst (sep : Char) (s : String) : Option (String × String) :=
  match splitOnCharAux sep s.data [] with
  | [] => none
  | [_] => none
  | h :: t => some (h.asString, (List.intercalate [sep] t).asString)

/-- `User.authenticate` from src/models/User.js lines 125 to 142:
`findOne` by email, `null` when absent, then the bcrypt comparison of the
submitted password against the stored hash, `null` on mismatch. -/
def User_authenticate (us : List VUser) (cmp : String → String → Bool)
    (email password : String) : Option VUser :=
  match findUserByEmail us email with
  | none => none
  | some u => if cmp password u.password then some u else none

/-- Outcome of the authentication middleware: either a response that ends
the request, or the authenticated user attached to it. -/
inductive AuthOutcome where
  | halt (r : Resp)
  | proceed (u : VUser)
deriving DecidableEq, Repr

/-- The single 401 response produced when `User.authenticate` returns
`null` (src/models/HealthCheck.js lines 144 to 148), for an unknown email
and for a wrong password alike. -/
def invalidCredResp : Resp :=
  ⟨401, some "Invalid email or password", true⟩

/-- The middleware from the resolved `(email, password)` pair onward,
src/models/HealthCheck.js lines 141 to 164: `User.authenticate`, the
common 401 on `null`, then the email-verification gate (403), then
`req.user = user; next()`. -/
def authEmailPassword (us : List VUser) (cmp : String → String → Bool)
    (email password : String) : AuthOutcome :=
  match User_authenticate us cmp email password with
  | none => .halt invalidCredResp
  | some u =>
    if !u.email_verified then
      .halt ⟨403,
        some "Email not verified. Please verify your email before accessing this resource.",
        false⟩
    else .proceed u

/-! ## Serialization of the verification-era User row

The verification-era user routes serialize User instances through the
model's `toJSON` (`res.status(201).json(user)` at src/unnamed/part_005
line 245, `res.status(200).json(user)` at line 409).  Those instances
carry the verification attributes: line 221 reads
`user.verification_token` straight off a freshly created row.  The model
file defining that `toJSON` is not among the sources (an earlier
pre-verification `User.prototype.toJSON`, src/models/User.js lines 117 to
122, deletes the `password` key from a copy of `this.get()`). -/

/-- The value of one serialized attribute: a string, a boolean, or a
nullable field. -/
inductive AttrVal where
  | str (v : String)
  | bool (v : Bool)
  | nullableStr (v : Option String)
  | nullableNat (v : Option Nat)
deriving DecidableEq, Repr

/-- `this.get()` on a verification-era User row: every attribute of the
row as a key-value pair, the two token fields included. -/
def VUser.getValues (u : VUser) : List (String × AttrVal) :=
  [("id", .str u.id), ("email", .str u.email), ("password", .str u.password),
   ("first_name", .str u.first_name), ("last_name", .str u.last_name),
   ("email_verified", .bool u.email_verified),
   ("verification_token", .nullableStr u.verification_token),
   ("token_created_at", .nullableNat u.token_created_at)]

/-- Modelled from the spec: the verification-era `User.prototype.toJSON`,
whose defining model file is not among the sources although the routes of
src/unnamed/part_005 serialize through it.  Per spec section 6 any
serialization of an Identity to a caller MUST exclude `password_hash`
(the model stores the hash in its `password` column), `verification_token`
and `token_created_at`, and per spec section 9 the implementation strips
these sensitive keys ad hoc from the copied attribute map before
output. -/
def VUser.toJSON (u : VUser) : List (String × AttrVal) :=
  u.getValues.filter (fun kv =>
    !(kv.1 == "password") && !(kv.1 == "verification_token")
      && !(kv.1 == "token_created_at"))

/-! ## User routes: GET, PUT, PATCH /v1/user/:userId

From the users route of src/unnamed/part_005 lines 365 to 591 (its second
variant, lines 674 to 828, orders the same checks identically).  The
validation middlewares that run before these handlers are outside the
functions; their request bodies arrive as optional fields. -/

/-- JS truthiness of an optional string body field: absent and empty both
count as falsy. -/
def truthy : Option String → Bool
  | none => false
  | some s => !(s == "")

/-- The updatable body fields of the user routes. -/
structure UserBody where
  password : Option String
  first_name : Option String
  last_name : Option String
deriving DecidableEq, Repr

/-- `User.findByPk` over the explicit row list. -/
def findUserByPk (us : List VUser) (uid : String) : Option VUser :=
  us.find? (fun u => u.id == uid)

/-- `GET /v1/user/:userId` (src/unnamed/part_005 lines 365 to 418): UUID
shape check, then the self-access check against the authenticated id,
then the lookup.  The 200 response body is the serialized row (see
`VUser.toJSON`); only its status matters here. -/
def getUser (us : List VUser) (authId userId : String) : Resp :=
  if !(uuidV4Check userId) then ⟨400, some "Invalid user ID format", false⟩
  else if !(userId == authId) then
    ⟨403, some "You can only access your own user information", false⟩
  else
    match findUserByPk us userId with
    | none => ⟨404, some "User not found", false⟩
    | some _ => ⟨200, none, false⟩

/-- `PUT /v1/user/:userId` (src/unnamed/part_005 lines 421 to 506): UUID
check, self-access check, the all-fields-present check, then the lookup
and the update. -/
def putUser (us : List VUser) (authId userId : String) (b : UserBody) : Resp :=
  if !(uuidV4Check userId) then ⟨400, some "Invalid user ID format", false⟩
  else if !(userId == authId) then
    ⟨403, some "You can only update your own user information", false⟩
  else if !(truthy b.password && truthy b.first_name && truthy b.last_name) then
    ⟨400, some "PUT requires all updatable fields: password, first_name, last_name", false⟩
  else
    match findUserByPk us userId with
    | none => ⟨404, some "User not found", false⟩
    | some _ => ⟨204, none, false⟩

/-- `PATCH /v1/user/:userId` (src/unnamed/part_005 lines 509 to 591):
UUID check, self-access check, lookup, then the no-valid-fields check on
the update object built from the defined body fields. -/
def patchUser (us : List VUser) (authId userId : String) (b : UserBody) : Resp :=
  if !(uuidV4Check userId) then ⟨400, some "Invalid user ID format", false⟩
  else if !(userId == authId) then
    ⟨403, some "You can only update your own user information", false⟩
  else
    match findUserByPk us userId with
    | none => ⟨404, some "User not found", false⟩
    | some _ =>
      if (b.password == none) && (b.first_name == none) && (b.last_name == none) then
        ⟨400, some "No valid fields to update", false⟩
      else ⟨204, none, false⟩

/-! ## Product routes: PUT, PATCH, DELETE /v1/product/:productId

From the products route of src/unnamed/part_005 lines 841 to 1118.  The
`Product` model columns used by the handlers are `id`, `owner_user_id`
(the owning identity, fixed at creation), `sku` and the descriptive
fields (src/models/Image.js lines 137 to 265). -/

/-- A `Product` row with the columns the mutation handlers read. -/
structure Product where
  id : String
  owner_user_id : String
  name : String
  description : String
  sku : String
  manufacturer : String
  quantity : Nat
deriving DecidableEq, Repr

/-- `Product.findByPk` over the explicit row list. -/
def findProductByPk (ps : List Product) (pid : String) : Option Product :=
  ps.find? (fun p => p.id == pid)

/-- `Product.findOne({ where: { sku } })` over the explicit row list. -/
def findProductBySku (ps : List Product) (sku : String) : Option Product :=
  ps.find? (fun p => p.sku == sku)

/-- The optional body fields of the product mutation routes. -/
structure ProductBody where
  name : Option String
  description : Option String
  sku : Option String
  manufacturer : Option String
  quantity : Option Nat
deriving DecidableEq, Repr

/-- `PUT /v1/product/:productId` (src/unnamed/part_005 lines 928 to 995):
UUID shape check, the all-fields-present check (JS truthiness for the
strings, `quantity === undefined` for the number), `findByPk` with 404 on
absence, the ownership check with 403 on mismatch, the SKU conflict
check, then the update. -/
def putProduct (ps : List Product) (uid pid : String) (b : ProductBody) : Resp :=
  if !(uuidV4Check pid) then ⟨400, some "Invalid product ID format", false⟩
  else if !(truthy b.name && truthy b.description && truthy b.sku
            && truthy b.manufacturer && !(b.quantity == none)) then
    ⟨400, some "PUT requires all fields: name, description, sku, manufacturer, quantity", false⟩
  else
    match findProductByPk ps pid with
    | none => ⟨404, some "Product not found", false⟩
    | some p =>
      if !(p.owner_user_id == uid) then
        ⟨403, some "You do not have permission to update this product", false⟩
      else
        let bsku := b.sku.getD ""
        if !(bsku == p.sku) then
          match findProductBySku ps bsku with
          | some _ => ⟨400, some "Product with this SKU already exists", false⟩
          | none => ⟨204, none, false⟩
        else ⟨204, none, false⟩

/-- `PATCH /v1/product/:productId` (src/unnamed/part_005 lines 998 to
1065): UUID shape check, `findByPk` with 404 on absence, the ownership
check with 403 on mismatch, the no-valid-fields check on the update
object, the conditional SKU conflict check (`sku && sku !== product.sku`),
then the update. -/
def patchProduct (ps : List Product) (uid pid : String) (b : ProductBody) : Resp :=
  if !(uuidV4Check pid) then ⟨400, some "Invalid product ID format", false⟩
  else
    match findProductByPk ps pid with
    | none => ⟨404, some "Product not found", false⟩
    | some p =>
      if !(p.owner_user_id == uid) then
        ⟨403, some "You do not have permission to update this product", false⟩
      else if (b.name == none) && (b.description == none) && (b.sku == none)
              && (b.manufacturer == none) && (b.quantity == none) then
        ⟨400, some "No valid fields to update", false⟩
      else if truthy b.sku && !(b.sku.getD "" == p.sku) then
        match findProductBySku ps (b.sku.getD "") with
        | some _ => ⟨400, some "Product with this SKU already exists", false⟩
        | none => ⟨204, none, false⟩
      else ⟨204, none, false⟩

/-- `DELETE /v1/product/:productId` (src/unnamed/part_005 lines 1068 to
1105): the in-handler body check, UUID shape check, `findByPk` with 404
on absence, the ownership check with 403 on mismatch, then the
destroy. -/
def deleteProduct (ps : List Product) (uid pid : String) (bodyNonempty : Bool) : Resp :=
  if bodyNonempty then ⟨400, some "Request body not allowed", false⟩
  else if !(uuidV4Check pid) then ⟨400, some "Invalid product ID format", false⟩
  else
    match findProductByPk ps pid with
    | none => ⟨404, some "Product not found", false⟩
    | some p =>
      if !(p.owner_user_id == uid) then
        ⟨403, some "You do not have permission to delete this product", false⟩
      else ⟨204, none, false⟩

/-! ## Image upload route

From src/unnamed/part_006 lines 46 to 162: `POST /v1/product/:product_id/image`
resolves the product with the single combined query
`Product.findOne({ where: { id: product_id, owner_user_id: userId } })`
and answers 403 both when the product does not exist and when it belongs
to someone else. -/

/-- The combined existence-and-ownership query of the image routes. -/
def findOwnedProduct (ps : List Product) (pid uid : String) : Option Product :=
  ps.find? (fun p => p.id == pid && p.owner_user_id == uid)

/-- `POST /v1/product/:product_id/image` (src/unnamed/part_006 lines 46
to 162): missing-file check, the combined product query with its single
403 response, then the S3 write (its success passed in as a flag) and the
201 metadata response. -/
def uploadImage (ps : List Product) (uid pid : String)
    (filePresent s3ok : Bool) : Resp :=
  if !filePresent then ⟨400, some "No image file provided", false⟩
  else
    match findOwnedProduct ps pid uid with
    | none =>
      ⟨403,
       some "Product not found or you do not have permission to add images to this product",
       false⟩
    | some _ =>
      if !s3ok then ⟨500, some "Failed to upload image to storage", false⟩
      else ⟨201, none, false⟩

/-! ## Liveness probe: /healthz

From src/unnamed/part_007 lines 6 to 80 (the second variant, lines 89 to
189, is identical up to logging).  Express dispatches GET and HEAD
requests to the `router.get` handler and every other method to the
`router.all` handler.  All probe responses end with no body. -/

/-- The request data the probe handlers inspect. -/
structure ProbeReq where
  method : String
  queryCount : Nat
  bodyNonempty : Bool
  contentLength : Option Nat
deriving DecidableEq, Repr

/-- The `router.get` handler of /healthz (src/unnamed/part_007 lines 6 to
57): the HEAD rejection, the payload rejection (query parameters, body,
or a positive content-length header), then the dependency write whose
outcome is the `dbOk` flag. -/
def healthzGet (dbOk : Bool) (r : ProbeReq) : Resp :=
  let hasQueryParams := decide (r.queryCount > 0)
  let hasBody := r.bodyNonempty
  let hasContentLength :=
    match r.contentLength with
    | some n => decide (n > 0)
    | none => false
  if r.method == "HEAD" then ⟨405, none, false⟩
  else if hasQueryParams || hasBody || hasContentLength then ⟨400, none, false⟩
  else if dbOk then ⟨200, none, false⟩
  else ⟨503, none, false⟩

/-- The `router.all` handler of /healthz (src/unnamed/part_007 lines 60
to 80): 405 for HEAD and for every non-GET method; a GET would fall
through unanswered, which the dispatch below never lets happen. -/
def healthzAll (r : ProbeReq) : Option Resp :=
  if r.method == "HEAD" then some ⟨405, none, false⟩
  else if !(r.method == "GET") then some ⟨405, none, false⟩
  else none

/-- Express routing for /healthz: GET and HEAD reach the `router.get`
handler, every other method the `router.all` handler. -/
def healthzDispatch (dbOk : Bool) (r : ProbeReq) : Option Resp :=
  if (r.method == "GET") || (r.method == "HEAD") then some (healthzGet dbOk r)
  else healthzAll r

/-! ## Shared concrete fixtures -/

/-- A well-formed version-4 UUID token used by the concrete witnesses. -/
def theToken : String := "3fa85f64-5717-4562-b3fc-2c963f66afa6"

/-- A freshly registered, unverified user holding `theToken` issued at
time 0. -/
def uFresh : VUser :=
  ⟨"u-1", "a@x.com", "hash", "Ada", "Lovelace", false, some theToken, some 0⟩

/-- A user whose verification already completed: verified, both token
fields cleared. -/
def uVerifiedRow : VUser :=
  ⟨"u-1", "a@x.com", "hash", "Ada", "Lovelace", true, none, none⟩

/-! ## Helper lemmas on the verification check -/

/-- On a verified row the check short-circuits and leaves the row as is. -/
theorem verifyCheck_of_verified (u : VUser) (t : String) (n : Nat)
    (h : u.email_verified = true) :
    verifyCheck u t n = (VerifyOutcome.alreadyVerified, u) := by
  simp [verifyCheck, h]

/-- A check that returns `ok` leaves the row verified. -/
theorem verifyCheck_ok_post (u : VUser) (t : String) (n : Nat)
    (h : (verifyCheck u t n).1 = VerifyOutcome.ok) :
    ((verifyCheck u t n).2).email_verified = true := by
  by_cases h1 : u.email_verified = true
  · simp [verifyCheck, h1] at h
  · by_cases h2 : u.verification_token = some t
    · by_cases h3 : u.isTokenExpired n = true
      · simp [verifyCheck, h1, h2, h3] at h
      · simp [verifyCheck, h1, h2, h3]
    · simp [verifyCheck, h1, h2] at h

/-- Unfolding equation: the first call of a check sequence. -/
theorem runChecks_fst_cons (u : VUser) (t : String) (n : Nat)
    (l : List (String × Nat)) :
    (runChecks u ((t, n) :: l)).1 =
      (verifyCheck u t n).1 :: (runChecks (verifyCheck u t n).2 l).1 := rfl

/-- Counting `ok` outcomes through a cons. -/
theorem okCount_cons (o : VerifyOutcome) (l : List VerifyOutcome) :
    okCount (o :: l) = okCount l + (if o = VerifyOutcome.ok then 1 else 0) := by
  simp [okCount, List.countP_cons]

/-- Once the row is verified, no later sequence of checks produces `ok`. -/
theorem runChecks_verified_zero (l : List (String × Nat)) (u : VUser)
    (h : u.email_verified = true) :
    okCount (runChecks u l).1 = 0 := by
  induction l generalizing u with
  | nil => rfl
  | cons hd tl ih =>
    obtain ⟨t, n⟩ := hd
    rw [runChecks_fst_cons, okCount_cons, verifyCheck_of_verified u t n h]
    simp [ih u h]

/-- Any sequence of checks on any starting row yields `ok` at most once. -/
theorem runChecks_ok_le_one (l : List (String × Nat)) (u : VUser) :
    okCount (runChecks u l).1 ≤ 1 := by
  induction l generalizing u with
  | nil => simp [runChecks, okCount]
  | cons hd tl ih =>
    obtain ⟨t, n⟩ := hd
    rw [runChecks_fst_cons, okCount_cons]
    by_cases ho : (verifyCheck u t n).1 = VerifyOutcome.ok
    · rw [runChecks_verified_zero tl _ (verifyCheck_ok_post u t n ho), ho]
      simp
    · rw [if_neg ho]
      have := ih (verifyCheck u t n).2
      omega

/-- Claim C1: on a resolved identity row and a submitted token, the
verification check tests its conditions in the fixed order
already-verified (200, no mutation), then exact token equality (400 on
mismatch), then expiry (400), and only in the remaining success case
(200) sets email_verified, clears verification_token and
token_created_at, and persists that row. -/
theorem C1_verification_check_order (u : VUser) (token : String) (now : Nat) :
    (u.email_verified = true →
      verifyCheck u token now = (VerifyOutcome.alreadyVerified, u)) ∧
    (u.email_verified = false → u.verification_token ≠ some token →
      verifyCheck u token now = (VerifyOutcome.invalidToken, u)) ∧
    (u.email_verified = false → u.verification_token = some token →
      u.isTokenExpired now = true →
      verifyCheck u token now = (VerifyOutcome.expiredToken, u)) ∧
    (u.email_verified = false → u.verification_token = some token →
      u.isTokenExpired now = false →
      verifyCheck u token now =
        (VerifyOutcome.ok,
         { u with email_verified := true, verification_token := none,
                  token_created_at := none })) ∧
    (verifyResp VerifyOutcome.alreadyVerified).status = 200 ∧
    (verifyResp VerifyOutcome.invalidToken).status = 400 ∧
    (verifyResp VerifyOutcome.expiredToken).status = 400 ∧
    (verifyResp VerifyOutcome.ok).status = 200 := by
  refine ⟨?_, ?_, ?_, ?_, rfl, rfl, rfl, rfl⟩
  · intro h; simp [verifyCheck, h]
  · intro h1 h2; simp [verifyCheck, h1, h2]
  · intro h1 h2 h3; simp [verifyCheck, h1, h2, h3]
  · intro h1 h2 h3; simp [verifyCheck, h1, h2, h3]

/-- Witness for C1 at concrete rows: each of the four branches observed
on explicit inputs. -/
theorem C1_verification_check_order_witness :
    verifyCheck uVerifiedRow theToken 0 = (VerifyOutcome.alreadyVerified, uVerifiedRow) ∧
    verifyCheck uFresh "not-the-token" 0 = (VerifyOutcome.invalidToken, uFresh) ∧
    verifyCheck uFresh theToken 70000 = (VerifyOutcome.expiredToken, uFresh) ∧
    verifyCheck uFresh theToken 1000 =
      (VerifyOutcome.ok,
       { uFresh with email_verified := true, verification_token := none,
                     token_created_at := none }) :=
  ⟨(C1_verification_check_order uVerifiedRow theToken 0).1 rfl,
   (C1_verification_check_order uFresh "not-the-token" 0).2.1 rfl (by decide),
   (C1_verification_check_order uFresh theToken 70000).2.2.1 rfl rfl (by decide),
   (C1_verification_check_order uFresh theToken 1000).2.2.2.1 rfl rfl (by decide)⟩

/-- Claim C2: on an identity holding a freshly issued, unexpired token,
submitting the correct token twice yields `ok` then already-verified, and
no sequence of check calls whatsoever yields `ok` more than once. -/
theorem C2_verification_single_use (u : VUser) (t : String) (c n1 n2 : Nat)
    (l : List (String × Nat))
    (h1 : u.email_verified = false) (h2 : u.verification_token = some t)
    (h3 : u.token_created_at = some c) (h4 : n1 - c ≤ EXPIRY_MS) :
    (verifyCheck u t n1).1 = VerifyOutcome.ok ∧
    (verifyCheck (verifyCheck u t n1).2 t n2).1 = VerifyOutcome.alreadyVerified ∧
    okCount (runChecks u l).1 ≤ 1 := by
  have hexp : u.isTokenExpired n1 = false := by
    simp only [VUser.isTokenExpired, h3, decide_eq_false_iff_not, not_lt]
    omega
  have hfst : verifyCheck u t n1 =
      (VerifyOutcome.ok,
       { u with email_verified := true, verification_token := none,
                token_created_at := none }) := by
    simp [verifyCheck, h1, h2, hexp]
  refine ⟨by rw [hfst], ?_, runChecks_ok_le_one l u⟩
  rw [hfst]
  exact congrArg Prod.fst (verifyCheck_of_verified _ t n2 rfl)

/-- Witness for C2: the fresh fixture row, checked at times 1000 and 2000,
with a three-call replay sequence. -/
theorem C2_verification_single_use_witness :
    (verifyCheck uFresh theToken 1000).1 = VerifyOutcome.ok ∧
    (verifyCheck (verifyCheck uFresh theToken 1000).2 theToken 2000).1 =
      VerifyOutcome.alreadyVerified ∧
    okCount (runChecks uFresh
      [(theToken, 1000), (theToken, 2000), (theToken, 3000)]).1 ≤ 1 :=
  C2_verification_single_use uFresh theToken 0 1000 2000
    [(theToken, 1000), (theToken, 2000), (theToken, 3000)]
    rfl rfl rfl (by decide)

/-- Claim C3 counterexample: a fresh identity verifies successfully, and a
second call of the confirmation endpoint with the same, now-cleared token
string answers already-verified (200), not the invalid-token response the
claim requires. -/
theorem C3_counterexample_replay_is_already_verified :
    (verifyRoute
       (verifyRoute [uFresh] (some "a@x.com") (some theToken) 1000).2
       (some "a@x.com") (some theToken) 2000).1 =
      ⟨200, some "Email already verified", false⟩ ∧
    (verifyRoute
       (verifyRoute [uFresh] (some "a@x.com") (some theToken) 1000).2
       (some "a@x.com") (some theToken) 2000).1 ≠
      verifyResp VerifyOutcome.invalidToken := by
  constructor
  · decide
  · decide

/-- Claim C3 as amended: after a successful verification the identity is
verified, so a further call of the confirmation endpoint with the same,
now-cleared token string (a well-formed UUID) answers already-verified
(200) rather than invalid-token, because the email-verified short circuit
precedes the token comparison. -/
theorem C3_amended_replay_already_verified (us : List VUser)
    (email token : String) (now : Nat) (u : VUser)
    (he : emailCheck email = true) (ht : uuidV4Check token = true)
    (hf : findUserByEmail us email = some u) (hv : u.email_verified = true) :
    (verifyRoute us (some email) (some token) now).1 =
      ⟨200, some "Email already verified", false⟩ ∧
    (verifyRoute us (some email) (some token) now).1 ≠
      verifyResp VerifyOutcome.invalidToken := by
  have hne : (email == "") = false := by
    rcases eq_or_ne email "" with rfl | h
    · exact absurd he (by decide)
    · simp [h]
  have htne : (token == "") = false := by
    rcases eq_or_ne token "" with rfl | h
    · exact absurd ht (by decide)
    · simp [h]
  have hcheck := verifyCheck_of_verified u token now hv
  constructor
  · simp [verifyRoute, hne, htne, he, ht, hf, hcheck, verifyResp]
  · simp [verifyRoute, hne, htne, he, ht, hf, hcheck, verifyResp]

/-- Witness for the amended C3, on the verified fixture row. -/
theorem C3_amended_replay_already_verified_witness :
    (verifyRoute [uVerifiedRow] (some "a@x.com") (some theToken) 5000).1 =
      ⟨200, some "Email already verified", false⟩ ∧
    (verifyRoute [uVerifiedRow] (some "a@x.com") (some theToken) 5000).1 ≠
      verifyResp VerifyOutcome.invalidToken :=
  C3_amended_replay_already_verified [uVerifiedRow] "a@x.com" theToken 5000
    uVerifiedRow (by decide) (by decide) (by decide) rfl

/-- Claim C4, evaluated at the failing input: on the decoded payload
`a@x.com:pa:ss` (a secret containing the separator) the middleware's
destructured every-colon split yields the secret `pa`, the segment
between the first and second colon, while the first-occurrence split the
claim describes yields the entire remainder `pa:ss`. -/
theorem C4_split_at_failing_input :
    parseCredentials "a@x.com:pa:ss" = some ("a@x.com", "pa") ∧
    splitAtFirst ':' "a@x.com:pa:ss" = some ("a@x.com", "pa:ss") ∧
    ("pa" : String) ≠ "pa:ss" := by
  refine ⟨by decide, by decide, by decide⟩

/-- Claim C5: the middleware produces one and the same 401 response,
status, body and WWW-Authenticate header alike, when no identity exists
for the submitted email and when the identity exists but the comparison
against its stored hash fails; the two cases are indistinguishable in the
response. -/
theorem C5_credential_enumeration_resistance (us : List VUser)
    (cmp : String → String → Bool) (e1 p1 e2 p2 : String) (u : VUser)
    (h1 : findUserByEmail us e1 = none)
    (h2 : findUserByEmail us e2 = some u)
    (h3 : cmp p2 u.password = false) :
    authEmailPassword us cmp e1 p1 = AuthOutcome.halt invalidCredResp ∧
    authEmailPassword us cmp e2 p2 = AuthOutcome.halt invalidCredResp ∧
    authEmailPassword us cmp e1 p1 = authEmailPassword us cmp e2 p2 := by
  have c1 : authEmailPassword us cmp e1 p1 = AuthOutcome.halt invalidCredResp := by
    simp [authEmailPassword, User_authenticate, h1]
  have c2 : authEmailPassword us cmp e2 p2 = AuthOutcome.halt invalidCredResp := by
    simp [authEmailPassword, User_authenticate, h2, h3]
  exact ⟨c1, c2, c1.trans c2.symm⟩

/-- Witness for C5: a one-row store, an unknown email versus the stored
row with a comparison that rejects. -/
theorem C5_credential_enumeration_resistance_witness :
    authEmailPassword [uVerifiedRow] (fun _ _ => false) "b@x.com" "pw1" =
      AuthOutcome.halt invalidCredResp ∧
    authEmailPassword [uVerifiedRow] (fun _ _ => false) "a@x.com" "pw2" =
      AuthOutcome.halt invalidCredResp ∧
    authEmailPassword [uVerifiedRow] (fun _ _ => false) "b@x.com" "pw1" =
      authEmailPassword [uVerifiedRow] (fun _ _ => false) "a@x.com" "pw2" :=
  C5_credential_enumeration_resistance [uVerifiedRow] (fun _ _ => false)
    "b@x.com" "pw1" "a@x.com" "pw2" uVerifiedRow rfl rfl rfl

/-! ## Helper lemmas on the product mutation handlers -/

/-- PUT on an existing product owned by someone else answers 403. -/
theorem putProduct_forbidden (ps : List Product) (uid pid : String)
    (p : Product) (b : ProductBody)
    (h1 : uuidV4Check pid = true)
    (hb : (truthy b.name && truthy b.description && truthy b.sku
           && truthy b.manufacturer && !(b.quantity == none)) = true)
    (h2 : findProductByPk ps pid = some p)
    (ho : ¬ p.owner_user_id = uid) :
    putProduct ps uid pid b =
      ⟨403, some "You do not have permission to update this product", false⟩ := by
  simp [putProduct, h1, hb, h2, ho]

/-- PUT on an existing product the caller owns never answers 403. -/
theorem putProduct_owner_not_403 (ps : List Product) (uid pid : String)
    (p : Product) (b : ProductBody)
    (h1 : uuidV4Check pid = true)
    (hb : (truthy b.name && truthy b.description && truthy b.sku
           && truthy b.manufacturer && !(b.quantity == none)) = true)
    (h2 : findProductByPk ps pid = some p)
    (ho : p.owner_user_id = uid) :
    (putProduct ps uid pid b).status ≠ 403 := by
  simp [putProduct, h1, hb, h2, ho]
  split
  · simp
  · split <;> simp

/-- PATCH on an existing product owned by someone else answers 403. -/
theorem patchProduct_forbidden (ps : List Product) (uid pid : String)
    (p : Product) (b : ProductBody)
    (h1 : uuidV4Check pid = true)
    (h2 : findProductByPk ps pid = some p)
    (ho : ¬ p.owner_user_id = uid) :
    patchProduct ps uid pid b =
      ⟨403, some "You do not have permission to update this product", false⟩ := by
  simp [patchProduct, h1, h2, ho]

/-- PATCH on an existing product the caller owns never answers 403. -/
theorem patchProduct_owner_not_403 (ps : List Product) (uid pid : String)
    (p : Product) (b : ProductBody)
    (h1 : uuidV4Check pid = true)
    (h2 : findProductByPk ps pid = some p)
    (ho : p.owner_user_id = uid) :
    (patchProduct ps uid pid b).status ≠ 403 := by
  simp [patchProduct, h1, h2, ho]
  split
  · simp
  · split
    · split <;> simp
    · simp

/-- DELETE on an existing product owned by someone else answers 403. -/
theorem deleteProduct_forbidden (ps : List Product) (uid pid : String)
    (p : Product)
    (h1 : uuidV4Check pid = true)
    (h2 : findProductByPk ps pid = some p)
    (ho : ¬ p.owner_user_id = uid) :
    deleteProduct ps uid pid false =
      ⟨403, some "You do not have permission to delete this product", false⟩ := by
  simp [deleteProduct, h1, h2, ho]

/-- DELETE on an existing product the caller owns never answers 403. -/
theorem deleteProduct_owner_not_403 (ps : List Product) (uid pid : String)
    (p : Product)
    (h1 : uuidV4Check pid = true)
    (h2 : findProductByPk ps pid = some p)
    (ho : p.owner_user_id = uid) :
    (deleteProduct ps uid pid false).status ≠ 403 := by
  simp [deleteProduct, h1, h2, ho]

/-- Claim C6: for an authenticated identity and an existing product, each
of the mutation handlers PUT, PATCH and DELETE on /v1/product/:productId
answers 403 exactly when the product's owner_user_id differs from the
caller's id; the equivalence holds for every row list and every request
body, so no input other than the two ids decides allow versus deny. -/
theorem C6_ownership_determinism (ps : List Product) (uid pid : String)
    (p : Product) (bPut bPatch : ProductBody)
    (h1 : uuidV4Check pid = true)
    (h2 : findProductByPk ps pid = some p)
    (hb : (truthy bPut.name && truthy bPut.description && truthy bPut.sku
           && truthy bPut.manufacturer && !(bPut.quantity == none)) = true) :
    ((putProduct ps uid pid bPut).status = 403 ↔ ¬ p.owner_user_id = uid) ∧
    ((patchProduct ps uid pid bPatch).status = 403 ↔ ¬ p.owner_user_id = uid) ∧
    ((deleteProduct ps uid pid false).status = 403 ↔ ¬ p.owner_user_id = uid) := by
  by_cases ho : p.owner_user_id = uid
  · exact ⟨⟨fun h => absurd h (putProduct_owner_not_403 ps uid pid p bPut h1 hb h2 ho),
            fun h => absurd ho h⟩,
           ⟨fun h => absurd h (patchProduct_owner_not_403 ps uid pid p bPatch h1 h2 ho),
            fun h => absurd ho h⟩,
           ⟨fun h => absurd h (deleteProduct_owner_not_403 ps uid pid p h1 h2 ho),
            fun h => absurd ho h⟩⟩
  · refine ⟨⟨fun _ => ho, fun _ => ?_⟩, ⟨fun _ => ho, fun _ => ?_⟩,
            ⟨fun _ => ho, fun _ => ?_⟩⟩
    · rw [putProduct_forbidden ps uid pid p bPut h1 hb h2 ho]
    · rw [patchProduct_forbidden ps uid pid p bPatch h1 h2 ho]
    · rw [deleteProduct_forbidden ps uid pid p h1 h2 ho]

/-- A second well-formed version-4 UUID, used as a product id and as a
foreign user id in the concrete witnesses. -/
def pid1 : String := "99999999-9999-4999-8999-999999999999"

/-- A product fixture owned by user u-1. -/
def prodFixture : Product :=
  ⟨pid1, "u-1", "Widget", "A widget", "SKU-1", "Acme", 5⟩

/-- A fully populated product body for PUT requests. -/
def bodyFull : ProductBody :=
  ⟨some "Widget", some "A widget", some "SKU-1", some "Acme", some 1⟩

/-- Witness for C6: u-2 addressing the product of u-1 receives 403 on all
three mutation routes, and the owner never does. -/
theorem C6_ownership_determinism_witness :
    ((putProduct [prodFixture] "u-2" pid1 bodyFull).status = 403 ↔
      ¬ prodFixture.owner_user_id = "u-2") ∧
    ((patchProduct [prodFixture] "u-2" pid1 bodyFull).status = 403 ↔
      ¬ prodFixture.owner_user_id = "u-2") ∧
    ((deleteProduct [prodFixture] "u-2" pid1 false).status = 403 ↔
      ¬ prodFixture.owner_user_id = "u-2") :=
  C6_ownership_determinism [prodFixture] "u-2" pid1 prodFixture bodyFull bodyFull
    (by decide) rfl (by decide)

/-- Claim C7 counterexample: an authenticated upload that addresses a
product id with no product behind it is answered 403, not 404, by
POST /v1/product/:product_id/image. -/
theorem C7_counterexample_upload_missing_product_403 :
    uploadImage [] "u-1" pid1 true true =
      ⟨403,
       some "Product not found or you do not have permission to add images to this product",
       false⟩ ∧
    (uploadImage [] "u-1" pid1 true true).status ≠ 404 := by
  exact ⟨by decide, by decide⟩

/-- If no product carries the id, the combined id-and-owner query of the
image routes finds nothing either. -/
theorem findOwnedProduct_none_of_pk_none (ps : List Product) (pid uid : String)
    (h : findProductByPk ps pid = none) :
    findOwnedProduct ps pid uid = none := by
  simp only [findProductByPk, List.find?_eq_none] at h
  simp only [findOwnedProduct, List.find?_eq_none]
  intro p hp
  simp_all

/-- Claim C7 as amended: the PUT, PATCH and DELETE product routes answer
404 for a nonexistent product before any ownership comparison, for every
caller; the product-image routes instead resolve existence and ownership
with one combined query and answer 403 when the product does not
exist. -/
theorem C7_amended_not_found_before_ownership (ps : List Product)
    (uid pid : String) (bPut bPatch : ProductBody) (s3ok : Bool)
    (h1 : uuidV4Check pid = true)
    (h2 : findProductByPk ps pid = none)
    (hb : (truthy bPut.name && truthy bPut.description && truthy bPut.sku
           && truthy bPut.manufacturer && !(bPut.quantity == none)) = true) :
    putProduct ps uid pid bPut = ⟨404, some "Product not found", false⟩ ∧
    patchProduct ps uid pid bPatch = ⟨404, some "Product not found", false⟩ ∧
    deleteProduct ps uid pid false = ⟨404, some "Product not found", false⟩ ∧
    uploadImage ps uid pid true s3ok =
      ⟨403,
       some "Product not found or you do not have permission to add images to this product",
       false⟩ := by
  have h3 := findOwnedProduct_none_of_pk_none ps pid uid h2
  refine ⟨?_, ?_, ?_, ?_⟩
  · simp [putProduct, h1, hb, h2]
  · simp [patchProduct, h1, h2]
  · simp [deleteProduct, h1, h2]
  · simp [uploadImage, h3]

/-- Witness for the amended C7 on the empty product table. -/
theorem C7_amended_not_found_before_ownership_witness :
    putProduct [] "u-1" pid1 bodyFull = ⟨404, some "Product not found", false⟩ ∧
    patchProduct [] "u-1" pid1 bodyFull = ⟨404, some "Product not found", false⟩ ∧
    deleteProduct [] "u-1" pid1 false = ⟨404, some "Product not found", false⟩ ∧
    uploadImage [] "u-1" pid1 true true =
      ⟨403,
       some "Product not found or you do not have permission to add images to this product",
       false⟩ :=
  C7_amended_not_found_before_ownership [] "u-1" pid1 bodyFull bodyFull true
    (by decide) rfl (by decide)

/-- Claim C8: the serialized form of a verification-era User row, as
produced by the `toJSON` that every `res.json(user)` response body goes
through (the 201 of POST /v1/user, the 200 of GET /v1/user/:userId),
carries no password hash (the column the spec calls password_hash is the
model's `password` column) and no verification_token or token_created_at
key, even though the row itself holds all three; the public attributes
id, email, first_name, last_name and email_verified are retained. -/
theorem C8_serialization_excludes_secret_fields (u : VUser) :
    "password" ∉ (VUser.toJSON u).map Prod.fst ∧
    "password_hash" ∉ (VUser.toJSON u).map Prod.fst ∧
    "verification_token" ∉ (VUser.toJSON u).map Prod.fst ∧
    "token_created_at" ∉ (VUser.toJSON u).map Prod.fst ∧
    ("password", AttrVal.str u.password) ∈ VUser.getValues u ∧
    ("verification_token", AttrVal.nullableStr u.verification_token) ∈
      VUser.getValues u ∧
    ("token_created_at", AttrVal.nullableNat u.token_created_at) ∈
      VUser.getValues u ∧
    (VUser.toJSON u).map Prod.fst =
      ["id", "email", "first_name", "last_name", "email_verified"] := by
  refine ⟨?_, ?_, ?_, ?_, ?_, ?_, ?_, ?_⟩ <;>
    simp [VUser.toJSON, VUser.getValues]

/-- Claim C9: a request of the liveness probe that carries a query
parameter, a nonempty body, or a positive content-length is answered with
a client-error status (400 from the shape check on GET, 405 from the
method gate otherwise) and an empty body, whatever the method, and
without consulting the storage dependency. -/
theorem C9_healthz_shape_strict (dbOk : Bool) (r : ProbeReq)
    (h : r.queryCount > 0 ∨ r.bodyNonempty = true ∨
         (∃ n, r.contentLength = some n ∧ 0 < n)) :
    (healthzDispatch dbOk r = some ⟨400, none, false⟩ ∨
     healthzDispatch dbOk r = some ⟨405, none, false⟩) ∧
    healthzDispatch true r = healthzDispatch false r := by
  by_cases hHead : r.method = "HEAD"
  · constructor
    · right
      simp [healthzDispatch, healthzGet, hHead]
    · simp [healthzDispatch, healthzGet, hHead]
  · by_cases hGet : r.method = "GET"
    · have h400 : ∀ b, healthzDispatch b r = some ⟨400, none, false⟩ := by
        intro b
        rcases h with hq | hb | ⟨n, hn, hpos⟩
        · simp [healthzDispatch, healthzGet, hGet, hHead, hq]
        · simp [healthzDispatch, healthzGet, hGet, hHead, hb]
        · simp [healthzDispatch, healthzGet, hGet, hHead, hn, hpos]
      exact ⟨Or.inl (h400 dbOk), (h400 true).trans (h400 false).symm⟩
    · constructor
      · right
        simp [healthzDispatch, healthzAll, hGet, hHead]
      · simp [healthzDispatch, healthzAll, hGet, hHead]

/-- Witness for C9: a POST with one query parameter, and a GET with a
positive content-length, both rejected with an empty body. -/
theorem C9_healthz_shape_strict_witness :
    ((healthzDispatch true ⟨"POST", 1, false, none⟩ = some ⟨400, none, false⟩ ∨
      healthzDispatch true ⟨"POST", 1, false, none⟩ = some ⟨405, none, false⟩) ∧
     healthzDispatch true ⟨"POST", 1, false, none⟩ =
       healthzDispatch false ⟨"POST", 1, false, none⟩) ∧
    ((healthzDispatch true ⟨"GET", 0, false, some 7⟩ = some ⟨400, none, false⟩ ∨
      healthzDispatch true ⟨"GET", 0, false, some 7⟩ = some ⟨405, none, false⟩) ∧
     healthzDispatch true ⟨"GET", 0, false, some 7⟩ =
       healthzDispatch false ⟨"GET", 0, false, some 7⟩) :=
  ⟨C9_healthz_shape_strict true ⟨"POST", 1, false, none⟩ (Or.inl (by decide)),
   C9_healthz_shape_strict true ⟨"GET", 0, false, some 7⟩
     (Or.inr (Or.inr ⟨7, rfl, by decide⟩))⟩

/-- Claim C10: on GET, PUT and PATCH /v1/user/:userId, a well-formed
version-4 UUID different from the authenticated id is answered 403 for
every row list alike, the self-access comparison coming before any
lookup, so the response does not depend on whether such a user exists. -/
theorem C10_self_check_before_lookup (us : List VUser)
    (authId userId : String) (bPut bPatch : UserBody)
    (h1 : uuidV4Check userId = true) (h2 : ¬ userId = authId) :
    getUser us authId userId =
      ⟨403, some "You can only access your own user information", false⟩ ∧
    putUser us authId userId bPut =
      ⟨403, some "You can only update your own user information", false⟩ ∧
    patchUser us authId userId bPatch =
      ⟨403, some "You can only update your own user information", false⟩ := by
  refine ⟨?_, ?_, ?_⟩
  · simp [getUser, h1, h2]
  · simp [putUser, h1, h2]
  · simp [patchUser, h1, h2]

/-- Witness for C10: an empty row list (no such user exists at all) and a
populated one give the same 403 responses. -/
theorem C10_self_check_before_lookup_witness :
    (getUser [] "u-1" pid1 =
      ⟨403, some "You can only access your own user information", false⟩ ∧
     putUser [] "u-1" pid1 ⟨some "pw", some "A", some "B"⟩ =
      ⟨403, some "You can only update your own user information", false⟩ ∧
     patchUser [] "u-1" pid1 ⟨some "pw", none, none⟩ =
      ⟨403, some "You can only update your own user information", false⟩) ∧
    (getUser [uVerifiedRow] "u-1" pid1 =
      ⟨403, some "You can only access your own user information", false⟩ ∧
     putUser [uVerifiedRow] "u-1" pid1 ⟨some "pw", some "A", some "B"⟩ =
      ⟨403, some "You can only update your own user information", false⟩ ∧
     patchUser [uVerifiedRow] "u-1" pid1 ⟨some "pw", none, none⟩ =
      ⟨403, some "You can only update your own user information", false⟩) :=
  ⟨C10_self_check_before_lookup [] "u-1" pid1 ⟨some "pw", some "A", some "B"⟩
     ⟨some "pw", none, none⟩ (by decide) (by decide),
   C10_self_check_before_lookup [uVerifiedRow] "u-1" pid1
     ⟨some "pw", some "A", some "B"⟩ ⟨some "pw", none, none⟩
     (by decide) (by decide)⟩
